import Mathlib

/-!
Verification of the `mcp-atlassian` forms/rank adapter layer.

This file shallowly embeds the three relevant Python source modules:

* `src/mcp_atlassian/jira/rank.py` (`RankMixin.rank_issues`)
* `src/mcp_atlassian/jira/forms_api.py` (`FormsApiMixin`)
* `src/mcp_atlassian/models/jira/forms.py` (`ProFormaForm` and friends)

Python dictionaries / parsed JSON bodies are embedded as a `Json` inductive
(objects are ordered association lists, mirroring Python's insertion-ordered
dicts).  Python exceptions become `Except` errors; the HTTP layer is
abstracted as a response value (status code plus body parse outcome) that is
passed in explicitly, so each operation is a pure function of its arguments
and the remote response.
-/

namespace McpAtlassian

/-- Embedded JSON values / Python dict values.  Numbers are embedded as `Int`
(no claim involves non-integral numbers). -/
inductive Json where
  | null
  | bool (b : Bool)
  | num (n : Int)
  | str (s : String)
  | arr (xs : List Json)
  | obj (fields : List (String × Json))

/-- Python truthiness (`if x:`) of an embedded value. -/
def Json.truthy : Json → Bool
  | .null => false
  | .bool b => b
  | .num n => n != 0
  | .str s => s ≠ ""
  | .arr xs => !xs.isEmpty
  | .obj fs => !fs.isEmpty

/-- First binding of a key in an association list (Python dicts have unique
keys, so first = only). -/
def lookupKey : List (String × Json) → String → Option Json
  | [], _ => none
  | (k', v) :: rest, k => if k' = k then some v else lookupKey rest k

/-- Python `d.get(k, default)`. -/
def getKeyD (fs : List (String × Json)) (k : String) (d : Json) : Json :=
  (lookupKey fs k).getD d

/-- Python `d.get(k)` (missing key yields `None`). -/
def getKey (fs : List (String × Json)) (k : String) : Json :=
  getKeyD fs k .null

/-- Python `d[k] = v` on an insertion-ordered dict: replace in place if the
key is present, else append at the end. -/
def setKey : List (String × Json) → String → Json → List (String × Json)
  | [], k, v => [(k, v)]
  | (k', v') :: rest, k, v =>
      if k' = k then (k, v) :: rest else (k', v') :: setKey rest k v

/-- Python `len(x)` for the values it is applied to in `rank.py`:
defined on sequences/mappings, a `TypeError` otherwise. -/
def pyLen : Json → Except String Nat
  | .arr xs => .ok xs.length
  | .str s => .ok s.length
  | .obj fs => .ok fs.length
  | _ => .error "TypeError: object has no len"

/-- Python f-string interpolation of an optional string (`None` prints as
`"None"`). -/
def pyStr : Option String → String
  | none => "None"
  | some s => s

/-- Truthiness of an `Optional[str]` argument (`None` and `""` are falsy). -/
def optTruthy : Option String → Bool
  | none => false
  | some s => s ≠ ""

/-! ## Rank adapter (`rank.py`) -/

/-- Arguments of `RankMixin.rank_issues`. -/
structure RankArgs where
  issues : List String
  rank_before : Option String
  rank_after : Option String
  rank_custom_field_id : Option String

/-- Body parse outcome of an HTTP response: empty content, content that is
not valid JSON (`response.json()` raises `ValueError`), or parsed JSON. -/
inductive Body where
  | empty
  | invalid
  | json (j : Json)

/-- An HTTP response as observed by the adapter code. -/
structure HttpResponse where
  status : Nat
  body : Body

/-- `response.json()`: the parsed body, or `none` when parsing raises
(`ValueError`), which happens both for empty and for malformed content. -/
def Body.json? : Body → Option Json
  | .json j => some j
  | _ => none

/-- The precondition checks of `rank_issues` (rank.py lines 50-58), run
before any payload is built or any network request is issued. -/
def rankValidate (a : RankArgs) : Except String Unit :=
  if a.issues.isEmpty then
    .error "At least one issue key must be provided"
  else if (a.rank_before.isNone && a.rank_after.isNone)
      || (a.rank_before.isSome && a.rank_after.isSome) then
    .error "Exactly one of rank_before or rank_after must be provided"
  else
    .ok ()

/-- The request payload built by `rank_issues` (rank.py lines 60-70).  Note
the `if rank_before:` / `elif rank_after:` truthiness tests: an empty-string
anchor adds no key. -/
def rankPayload (a : RankArgs) : List (String × Json) :=
  [("issues", Json.arr (a.issues.map Json.str))]
  ++ (if optTruthy a.rank_before then
        [("rankBeforeIssue", Json.str (a.rank_before.getD ""))]
      else if optTruthy a.rank_after then
        [("rankAfterIssue", Json.str (a.rank_after.getD ""))]
      else [])
  ++ (if optTruthy a.rank_custom_field_id then
        [("rankCustomFieldId", Json.str (a.rank_custom_field_id.getD ""))]
      else [])

/-- `f"before {rank_before}" if rank_before else f"after {rank_after}"`
(rank.py lines 89-91 and 104-108). -/
def rankPosition (a : RankArgs) : String :=
  if optTruthy a.rank_before then "before " ++ a.rank_before.getD ""
  else "after " ++ pyStr a.rank_after

/-- The 207 Multi-Status handler on a successfully parsed JSON object body
(rank.py lines 96-109).  Python mutates the parsed dict in place; here the
same key updates are chained functionally.  A body whose
`successfulIssues` / `failedIssues` values have no `len` raises `TypeError`,
which the enclosing handler turns into a `ValueError`. -/
def rank207obj (a : RankArgs) (fs : List (String × Json)) : Except String Json :=
  let r1 := setKey fs "success" (.bool false)
  let r2 := setKey r1 "partial_success" (.bool true)
  match pyLen (getKeyD r2 "successfulIssues" (.arr [])),
        pyLen (getKeyD r2 "failedIssues" (.arr [])) with
  | .ok n, .ok m =>
      let msg := "Partially successful: " ++ toString n ++ " issues ranked, "
        ++ toString m ++ " issues failed"
      let r3 := setKey r2 "message" (.str msg)
      let r4 := setKey r3 "rank_position" (.str (rankPosition a))
      .ok (.obj r4)
  | _, _ => .error "Failed to rank issues: TypeError"

/-- Contextual suffix appended to the error message for non-2xx statuses
(rank.py lines 133-142). -/
def rankErrorSuffix (status : Nat) : String :=
  if status = 400 then " - This may be due to invalid issue keys or rank position"
  else if status = 403 then " - You may not have permission to rank issues"
  else if status = 404 then
    " - The rank endpoint may not be available in your Jira instance"
  else ""

/-- Response dispatch of `rank_issues` after a successful validation and
POST (rank.py lines 81-148).  `raise_for_status` turns any status ≥ 400 into
an `HTTPError`, re-raised as `ValueError` with a contextual suffix. -/
def rankDispatch (a : RankArgs) (resp : HttpResponse) : Except String Json :=
  if 400 ≤ resp.status then
    .error ("Failed to rank issues: HTTP " ++ toString resp.status
      ++ rankErrorSuffix resp.status)
  else if resp.status = 204 then
    .ok (.obj [
      ("success", .bool true),
      ("message", .str ("Successfully ranked issues: "
        ++ String.intercalate ", " a.issues)),
      ("issues", .arr (a.issues.map .str)),
      ("rank_position", .str (rankPosition a))])
  else if resp.status = 207 then
    match resp.body.json? with
    | some (.obj fs) => rank207obj a fs
    | some _ =>
        -- `result["success"] = False` on a non-dict raises `TypeError`,
        -- re-raised by the enclosing handler as `ValueError`.
        .error "Failed to rank issues: TypeError"
    | none =>
        .ok (.obj [
          ("success", .bool false),
          ("message",
            .str "Received 207 Multi-Status but could not parse JSON response"),
          ("status_code", .num 207)])
  else
    match resp.body.json? with
    | some j => .ok j
    | none =>
        .ok (.obj [
          ("success", .bool true),
          ("message", .str ("Successfully ranked issues: "
            ++ String.intercalate ", " a.issues)),
          ("status_code", .num resp.status)])

/-- `RankMixin.rank_issues`: validation (before any network traffic), then
response dispatch.  An `Except.error` models a raised `ValueError`. -/
def rank_issues (a : RankArgs) (resp : HttpResponse) : Except String Json :=
  match rankValidate a with
  | .error e => .error e
  | .ok _ => rankDispatch a resp

/-! ## Form models (`models/jira/forms.py`)

Python exceptions escaping normalization are tagged by class, because the
calling code in `forms_api.py` dispatches on the class: pydantic's
`ValidationError` subclasses `ValueError` and is caught by
`except ValueError`, while `AttributeError` (from calling `.get` on a
non-dict) is not. -/

/-- The exception classes the forms code distinguishes. -/
inductive FormsError where
  | authError (msg : String)
  | valueError (msg : String)
  | otherError (msg : String)

/-- pydantic check for a `str` field: the raw value must be a string. -/
def asStr : Json → Except FormsError String
  | .str s => .ok s
  | _ => .error (.valueError "ValidationError: str expected")

/-- pydantic check for a `str | None` field. -/
def asStrOpt : Json → Except FormsError (Option String)
  | .null => .ok none
  | .str s => .ok (some s)
  | _ => .error (.valueError "ValidationError: str or None expected")

/-- pydantic check for a `bool` field. -/
def asBool : Json → Except FormsError Bool
  | .bool b => .ok b
  | _ => .error (.valueError "ValidationError: bool expected")

/-- pydantic check for a `bool | None` field. -/
def asBoolOpt : Json → Except FormsError (Option Bool)
  | .null => .ok none
  | .bool b => .ok (some b)
  | _ => .error (.valueError "ValidationError: bool or None expected")

/-- pydantic check for a `dict | None` field (the `design` document). -/
def asObjOpt : Json → Except FormsError (Option Json)
  | .null => .ok none
  | .obj fs => .ok (some (.obj fs))
  | _ => .error (.valueError "ValidationError: dict or None expected")

/-- `x.get(...)` on a value that must be a dict; `AttributeError` otherwise. -/
def asObjFields : Json → Except FormsError (List (String × Json))
  | .obj fs => .ok fs
  | _ => .error (.otherError "AttributeError: no attribute get")

/-- Element list of a raw `fields` value (iterated in the legacy branch). -/
def asArr : Json → Except FormsError (List Json)
  | .arr xs => .ok xs
  | _ => .error (.otherError "TypeError: not iterable")

/-- `ProFormaFormState`.  `datetime` values are embedded as their raw string
form (`submitted_at`); parsing of timestamps is orthogonal to every claim. -/
structure ProFormaFormState where
  status : String
  version : Option String
  submitted_at : Option String
  submitted_by : Option String

/-- `ProFormaFormState.from_api_response` (forms.py lines 33-51). -/
def ProFormaFormState.from_api_response (fs : List (String × Json)) :
    Except FormsError ProFormaFormState := do
  let status ← asStr (getKeyD fs "status" (.str "o"))
  let version ← asStrOpt (getKey fs "version")
  let submitted_at ← asStrOpt (getKey fs "submittedAt")
  let submitted_by ← asStrOpt (getKey fs "submittedBy")
  .ok ⟨status, version, submitted_at, submitted_by⟩

/-- `ProFormaFormField`.  `value` has pydantic type `Any` and is kept raw. -/
structure ProFormaFormField where
  id : String
  name : String
  type : String
  value : Json
  required : Bool
  read_only : Bool

/-- `ProFormaFormField.from_api_response` (forms.py lines 66-86); raises
`AttributeError` when the raw field entry is not a dict. -/
def ProFormaFormField.from_api_response (data : Json) :
    Except FormsError ProFormaFormField := do
  let fs ← asObjFields data
  let id ← asStr (getKeyD fs "id" (.str ""))
  let name ← asStr (getKeyD fs "name" (.str ""))
  let type ← asStr (getKeyD fs "type" (.str "text"))
  let required ← asBool (getKeyD fs "required" (.bool false))
  let read_only ← asBool (getKeyD fs "readOnly" (.bool false))
  .ok ⟨id, name, type, getKey fs "value", required, read_only⟩

/-- `ProFormaForm`.  `updated` (a `datetime | None` field) is embedded as the
raw string form. -/
structure ProFormaForm where
  id : String
  form_id : String
  name : Option String
  description : Option String
  state : ProFormaFormState
  fields : List ProFormaFormField
  issue_key : Option String
  updated : Option String
  internal : Option Bool
  submitted : Option Bool
  lock : Option Bool
  design : Option Json

/-- `ProFormaForm.from_api_response` (forms.py lines 121-195).  The first
step in either branch is `data.get(...)`, so a non-dict payload raises
`AttributeError`; ill-typed present fields raise pydantic `ValidationError`
(a `ValueError`). -/
def ProFormaForm.from_api_response (data : Json) (issue_key : Option String)
    (is_new_api : Bool) : Except FormsError ProFormaForm := do
  let fs ← asObjFields data
  if is_new_api then
    -- `status = "s" if data.get("submitted", False) else "o"`, inlined into
    -- the constructed state below.
    let design ← asObjOpt (getKey fs "design")
    let id ← asStr (getKeyD fs "id" (.str ""))
    let name ← asStrOpt (getKey fs "name")
    let updated ← asStrOpt (getKey fs "updated")
    let internal ← asBoolOpt (getKey fs "internal")
    let submitted ← asBoolOpt (getKey fs "submitted")
    let lock ← asBoolOpt (getKey fs "lock")
    .ok { id := id, form_id := id, name := name, description := none,
          state := ⟨if Json.truthy (getKeyD fs "submitted" (.bool false))
                      then "s" else "o", none, none, none⟩,
          fields := [], issue_key := issue_key,
          updated := updated, internal := internal, submitted := submitted,
          lock := lock, design := design }
  else
    let stateFields ← asObjFields (getKeyD fs "state" (.obj []))
    let state ← ProFormaFormState.from_api_response stateFields
    let rawFields ← asArr (getKeyD fs "fields" (.arr []))
    let fields ← rawFields.mapM ProFormaFormField.from_api_response
    let id ← asStr (getKeyD fs "id" (.str ""))
    let form_id ← asStr (getKeyD fs "formId" (getKeyD fs "id" (.str "")))
    let name ← asStrOpt (getKey fs "name")
    let description ← asStrOpt (getKey fs "description")
    .ok { id := id, form_id := form_id, name := name,
          description := description, state := state, fields := fields,
          issue_key := issue_key, updated := none, internal := none,
          submitted := none, lock := none, design := none }

/-- `ProFormaForm.is_open` (forms.py lines 197-199). -/
def ProFormaForm.is_open (f : ProFormaForm) : Bool :=
  f.state.status = "o"

/-- `ProFormaForm.is_submitted` (forms.py lines 201-203). -/
def ProFormaForm.is_submitted (f : ProFormaForm) : Bool :=
  f.state.status = "s"

/-! ## Forms transport adapter (`forms_api.py`) -/

/-- `FormsApiMixin.__init__` (forms_api.py lines 34-44): the Forms API base
URL from the optional `cloud_id` keyword argument. -/
def formsApiBase (cloud_id : Option String) : String :=
  "https://api.atlassian.com/jira/forms/cloud/"
    ++ cloud_id.getD "d30daf5c-29ad-4817-bd10-bdd85ae8455f"

/-- `FormsApiMixin._make_forms_api_request` (forms_api.py lines 46-100):
status mapping (403 → `MCPAtlassianAuthenticationError`, 404 → `ValueError`,
other non-2xx → generic `Exception`), empty 2xx bodies yield `{}`, and a 2xx
body that fails JSON parsing raises `json.JSONDecodeError`, a `ValueError`
subclass, re-raised unchanged by the final handler. -/
def make_forms_api_request (endpoint : String) (resp : HttpResponse) :
    Except FormsError Json :=
  if 400 ≤ resp.status then
    if resp.status = 403 then
      .error (.authError ("Insufficient permissions for Forms API: " ++ endpoint))
    else if resp.status = 404 then
      .error (.valueError ("Resource not found: " ++ endpoint))
    else
      .error (.otherError "HTTP error in Forms API")
  else
    match resp.body with
    | .empty => .ok (.obj [])
    | .invalid => .error (.valueError "JSONDecodeError")
    | .json j => .ok j

/-- `FormsApiMixin.get_issue_forms` (forms_api.py lines 102-144): a
`ValueError` from the request (404, or a body parse failure) yields `[]`;
a non-list 2xx payload yields `[]`; each list entry is normalized
individually with failures logged and skipped. -/
def get_issue_forms (issue_key : String) (resp : HttpResponse) :
    Except FormsError (List ProFormaForm) :=
  match make_forms_api_request ("/issue/" ++ issue_key ++ "/form") resp with
  | .error (.valueError _) => .ok []
  | .error e => .error e
  | .ok response =>
    match response with
    | .arr items =>
        .ok (items.filterMap fun d =>
          (ProFormaForm.from_api_response d (some issue_key) true).toOption)
    | _ => .ok []

/-- `FormsApiMixin.get_form_details` (forms_api.py lines 146-181): a
`ValueError` anywhere in the body (404, a body parse failure, or a pydantic
`ValidationError` from normalization) yields `none`; a non-dict 2xx payload
is logged and yields `none`. -/
def get_form_details (issue_key form_id : String) (resp : HttpResponse) :
    Except FormsError (Option ProFormaForm) :=
  match make_forms_api_request
      ("/issue/" ++ issue_key ++ "/form/" ++ form_id) resp with
  | .error (.valueError _) => .ok none
  | .error e => .error e
  | .ok response =>
    match response with
    | .obj fs =>
        match ProFormaForm.from_api_response (.obj fs) (some issue_key) true with
        | .ok f => .ok (some f)
        | .error (.valueError _) => .ok none
        | .error e => .error e
    | _ => .ok none

/-- `FormsApiMixin.get_form_attachments` (forms_api.py lines 265-295):
404 (a `ValueError`) yields `[]`; a non-list 2xx payload yields `[]`. -/
def get_form_attachments (issue_key form_id : String) (resp : HttpResponse) :
    Except FormsError (List Json) :=
  match make_forms_api_request
      ("/issue/" ++ issue_key ++ "/form/" ++ form_id ++ "/attachment") resp with
  | .error (.valueError _) => .ok []
  | .error e => .error e
  | .ok (.arr items) => .ok items
  | .ok _ => .ok []

/-! ## Helper lemmas -/

/-- Inverting a successful `Except` bind. -/
theorem except_bind_ok {ε α β : Type} {x : Except ε α} {g : α → Except ε β}
    {b : β} (h : (x >>= g) = .ok b) : ∃ a, x = .ok a ∧ g a = .ok b := by
  cases x with
  | error e => exact Except.noConfusion h
  | ok a => exact ⟨a, rfl, h⟩

/-- Looking up the key just set finds the new value. -/
theorem lookupKey_setKey_self (l : List (String × Json)) (k : String)
    (v : Json) : lookupKey (setKey l k v) k = some v := by
  induction l with
  | nil => simp [setKey, lookupKey]
  | cons p rest ih =>
      obtain ⟨k', v'⟩ := p
      by_cases h : k' = k
      · simp [setKey, h, lookupKey]
      · simp [setKey, h, lookupKey, ih]

/-- Setting one key leaves lookups of other keys unchanged. -/
theorem lookupKey_setKey_ne (l : List (String × Json)) (k k' : String)
    (v : Json) (hne : k' ≠ k) :
    lookupKey (setKey l k' v) k = lookupKey l k := by
  induction l with
  | nil => simp [setKey, lookupKey, hne]
  | cons p rest ih =>
      obtain ⟨k'', v''⟩ := p
      by_cases h : k'' = k'
      · subst h
        simp [setKey, lookupKey, hne]
      · simp [setKey, h, lookupKey, ih]

/-! ## Claims about the rank adapter -/

/-- C1: for every non-empty issue list and non-empty anchor issue key `X`
supplied as `rank_before` (with `rank_after` absent), a 204 response makes
`rank_issues` return the full-success dict with `success = true`, the same
issues list, and `rank_position = "before X"`; symmetrically
`"after X"` when the anchor is `rank_after`. -/
theorem claim_C1 (issues : List String) (X : String) (cf : Option String)
    (hne : issues ≠ []) (hX : X ≠ "") (b b' : Body) :
    rank_issues ⟨issues, some X, none, cf⟩ ⟨204, b⟩ =
      .ok (.obj [("success", .bool true),
        ("message", .str ("Successfully ranked issues: "
          ++ String.intercalate ", " issues)),
        ("issues", .arr (issues.map .str)),
        ("rank_position", .str ("before " ++ X))]) ∧
    rank_issues ⟨issues, none, some X, cf⟩ ⟨204, b'⟩ =
      .ok (.obj [("success", .bool true),
        ("message", .str ("Successfully ranked issues: "
          ++ String.intercalate ", " issues)),
        ("issues", .arr (issues.map .str)),
        ("rank_position", .str ("after " ++ X))]) := by
  have he : issues.isEmpty = false := by
    cases issues with
    | nil => exact absurd rfl hne
    | cons a l => rfl
  constructor <;>
    simp [rank_issues, rankValidate, rankDispatch, rankPosition, optTruthy,
      pyStr, he, hX]

/-- Witness for C1 at `issues = ["A","B"]`, `X = "C"`. -/
theorem claim_C1_witness :
    rank_issues ⟨["A", "B"], some "C", none, none⟩ ⟨204, .empty⟩ =
      .ok (.obj [("success", .bool true),
        ("message", .str ("Successfully ranked issues: "
          ++ String.intercalate ", " ["A", "B"])),
        ("issues", .arr ([("A" : String), "B"].map .str)),
        ("rank_position", .str ("before " ++ "C"))]) ∧
    rank_issues ⟨["A", "B"], none, some "C", none⟩ ⟨204, .empty⟩ =
      .ok (.obj [("success", .bool true),
        ("message", .str ("Successfully ranked issues: "
          ++ String.intercalate ", " ["A", "B"])),
        ("issues", .arr ([("A" : String), "B"].map .str)),
        ("rank_position", .str ("after " ++ "C"))]) :=
  claim_C1 ["A", "B"] "C" none (by decide) (by decide) .empty .empty

/-- C3: a call with an empty issue list, or with neither or both of
`rank_before` / `rank_after` supplied, fails validation: `rank_issues`
returns the same `ValueError` for every possible response, i.e. before and
independent of any network traffic or payload. -/
theorem claim_C3 (a : RankArgs)
    (h : a.issues = [] ∨ (a.rank_before = none ∧ a.rank_after = none)
      ∨ (a.rank_before ≠ none ∧ a.rank_after ≠ none)) :
    ∃ msg, rankValidate a = .error msg ∧
      ∀ resp, rank_issues a resp = .error msg := by
  have hv : ∃ msg, rankValidate a = .error msg := by
    rcases h with h | ⟨h1, h2⟩ | ⟨h1, h2⟩
    · exact ⟨"At least one issue key must be provided",
        by simp [rankValidate, h]⟩
    · by_cases he : a.issues.isEmpty
      · exact ⟨"At least one issue key must be provided",
          by simp [rankValidate, he]⟩
      · exact ⟨"Exactly one of rank_before or rank_after must be provided",
          by simp [rankValidate, he, h1, h2]⟩
    · obtain ⟨x, hx⟩ := Option.ne_none_iff_exists'.mp h1
      obtain ⟨y, hy⟩ := Option.ne_none_iff_exists'.mp h2
      by_cases he : a.issues.isEmpty
      · exact ⟨"At least one issue key must be provided",
          by simp [rankValidate, he]⟩
      · exact ⟨"Exactly one of rank_before or rank_after must be provided",
          by simp [rankValidate, he, hx, hy]⟩
  obtain ⟨msg, hm⟩ := hv
  exact ⟨msg, hm, fun resp => by simp [rank_issues, hm]⟩

/-- Witness for C3 at `issues = []`, `rank_before = some "X"`. -/
theorem claim_C3_witness :
    ∃ msg, rankValidate ⟨[], some "X", none, none⟩ = .error msg ∧
      ∀ resp, rank_issues ⟨[], some "X", none, none⟩ resp = .error msg :=
  claim_C3 ⟨[], some "X", none, none⟩ (Or.inl rfl)

/-- Evaluation of the 207 handler on a parsed object body whose
`successfulIssues` and `failedIssues` values are arrays. -/
theorem rank207obj_eq (a : RankArgs) (fs : List (String × Json))
    (ss ffs : List Json)
    (hs : lookupKey fs "successfulIssues" = some (.arr ss))
    (hf : lookupKey fs "failedIssues" = some (.arr ffs)) :
    rank207obj a fs = .ok (.obj (setKey (setKey (setKey (setKey fs
      "success" (.bool false)) "partial_success" (.bool true))
      "message" (.str ("Partially successful: " ++ toString ss.length
        ++ " issues ranked, " ++ toString ffs.length ++ " issues failed")))
      "rank_position" (.str (rankPosition a)))) := by
  have h1 : getKeyD (setKey (setKey fs "success" (.bool false))
      "partial_success" (.bool true)) "successfulIssues" (.arr [])
      = .arr ss := by
    unfold getKeyD
    rw [lookupKey_setKey_ne _ _ _ _ (by decide),
        lookupKey_setKey_ne _ _ _ _ (by decide), hs]
    rfl
  have h2 : getKeyD (setKey (setKey fs "success" (.bool false))
      "partial_success" (.bool true)) "failedIssues" (.arr [])
      = .arr ffs := by
    unfold getKeyD
    rw [lookupKey_setKey_ne _ _ _ _ (by decide),
        lookupKey_setKey_ne _ _ _ _ (by decide), hf]
    rfl
  simp only [rank207obj]
  rw [h1, h2]
  simp [pyLen]

/-- C2: a valid call that receives a 207 response whose body parses as a
JSON object with `successfulIssues` of length `N` and `failedIssues` of
length `M` returns a dict with `success = false`, `partial_success = true`,
a message containing "`N` issues ranked, `M` issues failed", and a
`rank_position` derived from the supplied anchor (the code's
before/after derivation is `rankPosition`). -/
theorem claim_C2 (a : RankArgs) (fs : List (String × Json))
    (ss ffs : List Json)
    (hv : rankValidate a = .ok ())
    (hs : lookupKey fs "successfulIssues" = some (.arr ss))
    (hf : lookupKey fs "failedIssues" = some (.arr ffs)) :
    ∃ out, rank_issues a ⟨207, .json (.obj fs)⟩ = .ok (.obj out) ∧
      lookupKey out "success" = some (.bool false) ∧
      lookupKey out "partial_success" = some (.bool true) ∧
      lookupKey out "message" = some (.str ("Partially successful: "
        ++ toString ss.length ++ " issues ranked, "
        ++ toString ffs.length ++ " issues failed")) ∧
      lookupKey out "rank_position" = some (.str (rankPosition a)) := by
  refine ⟨setKey (setKey (setKey (setKey fs "success" (.bool false))
      "partial_success" (.bool true)) "message"
      (.str ("Partially successful: " ++ toString ss.length
        ++ " issues ranked, " ++ toString ffs.length ++ " issues failed")))
      "rank_position" (.str (rankPosition a)), ?_, ?_, ?_, ?_, ?_⟩
  · have hd : rankDispatch a ⟨207, .json (.obj fs)⟩ = rank207obj a fs := by
      simp [rankDispatch, Body.json?]
    rw [rank_issues, hv, hd, rank207obj_eq a fs ss ffs hs hf]
  · rw [lookupKey_setKey_ne _ _ _ _ (by decide),
        lookupKey_setKey_ne _ _ _ _ (by decide),
        lookupKey_setKey_ne _ _ _ _ (by decide),
        lookupKey_setKey_self]
  · rw [lookupKey_setKey_ne _ _ _ _ (by decide),
        lookupKey_setKey_ne _ _ _ _ (by decide),
        lookupKey_setKey_self]
  · rw [lookupKey_setKey_ne _ _ _ _ (by decide),
        lookupKey_setKey_self]
  · rw [lookupKey_setKey_self]

/-- Witness for C2 at the spec's example body
`{"successfulIssues": ["A"], "failedIssues": [{"issueKey": "B",
"errors": []}]}`. -/
theorem claim_C2_witness :
    ∃ out, rank_issues ⟨["A", "B"], some "C", none, none⟩
        ⟨207, .json (.obj [("successfulIssues", .arr [.str "A"]),
          ("failedIssues", .arr [.obj [("issueKey", .str "B"),
            ("errors", .arr [])]])])⟩ = .ok (.obj out) ∧
      lookupKey out "success" = some (.bool false) ∧
      lookupKey out "partial_success" = some (.bool true) ∧
      lookupKey out "message" = some (.str ("Partially successful: "
        ++ toString ([Json.str "A"]).length ++ " issues ranked, "
        ++ toString ([Json.obj [("issueKey", .str "B"),
          ("errors", .arr [])]]).length ++ " issues failed")) ∧
      lookupKey out "rank_position"
        = some (.str (rankPosition ⟨["A", "B"], some "C", none, none⟩)) :=
  claim_C2 ⟨["A", "B"], some "C", none, none⟩
    [("successfulIssues", .arr [.str "A"]),
     ("failedIssues", .arr [.obj [("issueKey", .str "B"),
       ("errors", .arr [])]])]
    [.str "A"] [.obj [("issueKey", .str "B"), ("errors", .arr [])]]
    rfl rfl rfl

/-- C7: a valid call that receives a 207 response whose body does not parse
as JSON returns exactly
`{success: false, message: "Received 207 Multi-Status but could not parse
JSON response", status_code: 207}` (a dict, not a raised exception); the
message contains "could not parse". -/
theorem claim_C7 (a : RankArgs) (hv : rankValidate a = .ok ())
    (b : Body) (hb : b.json? = none) :
    rank_issues a ⟨207, b⟩ =
      .ok (.obj [("success", .bool false),
        ("message",
          .str "Received 207 Multi-Status but could not parse JSON response"),
        ("status_code", .num 207)]) := by
  simp [rank_issues, hv, rankDispatch, hb]

/-- Witness for C7 at `issues = ["A"]`, `rank_before = some "C"`, and an
unparseable 207 body. -/
theorem claim_C7_witness :
    rank_issues ⟨["A"], some "C", none, none⟩ ⟨207, .invalid⟩ =
      .ok (.obj [("success", .bool false),
        ("message",
          .str "Received 207 Multi-Status but could not parse JSON response"),
        ("status_code", .num 207)]) :=
  claim_C7 ⟨["A"], some "C", none, none⟩ rfl .invalid rfl

/-- C9: with a non-empty issue list and `rank_before = ""` (the empty
string), validation passes (the empty string is not `None`), yet the
truthiness tests while building the payload add neither `rankBeforeIssue`
nor `rankAfterIssue`, and a 204 response reports
`rank_position = "after None"`. -/
theorem claim_C9 (issues : List String) (cf : Option String)
    (hne : issues ≠ []) (b : Body) :
    rankValidate ⟨issues, some "", none, cf⟩ = .ok () ∧
    lookupKey (rankPayload ⟨issues, some "", none, cf⟩) "rankBeforeIssue"
      = none ∧
    lookupKey (rankPayload ⟨issues, some "", none, cf⟩) "rankAfterIssue"
      = none ∧
    rank_issues ⟨issues, some "", none, cf⟩ ⟨204, b⟩ =
      .ok (.obj [("success", .bool true),
        ("message", .str ("Successfully ranked issues: "
          ++ String.intercalate ", " issues)),
        ("issues", .arr (issues.map .str)),
        ("rank_position", .str "after None")]) := by
  have he : issues.isEmpty = false := by
    cases issues with
    | nil => exact absurd rfl hne
    | cons a l => rfl
  refine ⟨by simp [rankValidate, he], ?_, ?_, ?_⟩
  · cases cf with
    | none => simp [rankPayload, optTruthy, lookupKey]
    | some s =>
        by_cases hs : s = "" <;> simp [rankPayload, optTruthy, lookupKey, hs]
  · cases cf with
    | none => simp [rankPayload, optTruthy, lookupKey]
    | some s =>
        by_cases hs : s = "" <;> simp [rankPayload, optTruthy, lookupKey, hs]
  · simp [rank_issues, rankValidate, rankDispatch, rankPosition, optTruthy,
      pyStr, he]

/-- Witness for C9 at `issues = ["A"]`. -/
theorem claim_C9_witness :
    rankValidate ⟨["A"], some "", none, none⟩ = .ok () ∧
    lookupKey (rankPayload ⟨["A"], some "", none, none⟩) "rankBeforeIssue"
      = none ∧
    lookupKey (rankPayload ⟨["A"], some "", none, none⟩) "rankAfterIssue"
      = none ∧
    rank_issues ⟨["A"], some "", none, none⟩ ⟨204, .empty⟩ =
      .ok (.obj [("success", .bool true),
        ("message", .str ("Successfully ranked issues: "
          ++ String.intercalate ", " ["A"])),
        ("issues", .arr ([("A" : String)].map .str)),
        ("rank_position", .str "after None")]) :=
  claim_C9 ["A"] none (by decide) .empty

/-- C10: the Forms API base URL is
`https://api.atlassian.com/jira/forms/cloud/` followed by the `cloud_id`
keyword argument when supplied, and by the hard-coded default tenant id
`d30daf5c-29ad-4817-bd10-bdd85ae8455f` when absent. -/
theorem claim_C10 :
    (∀ c : String, formsApiBase (some c)
        = "https://api.atlassian.com/jira/forms/cloud/" ++ c) ∧
    formsApiBase none
      = "https://api.atlassian.com/jira/forms/cloud/d30daf5c-29ad-4817-bd10-bdd85ae8455f" :=
  ⟨fun _ => rfl, rfl⟩

/-! ## Claims about form normalization and the forms transport adapter -/

/-- Characterization of the state of a successfully normalized new-API
form: the status is `"s"` or `"o"` according to the truthiness of the raw
`submitted` field, and the remaining state fields are absent. -/
theorem from_api_response_new_state (fs : List (String × Json))
    (ik : Option String) (f : ProFormaForm)
    (h : ProFormaForm.from_api_response (.obj fs) ik true = .ok f) :
    f.state = ⟨if Json.truthy (getKeyD fs "submitted" (.bool false))
                 then "s" else "o", none, none, none⟩ := by
  unfold ProFormaForm.from_api_response at h
  obtain ⟨fs', hfs, h⟩ := except_bind_ok h
  have hinj : (Except.ok fs : Except FormsError (List (String × Json)))
      = .ok fs' := hfs
  cases Except.ok.inj hinj
  simp only [reduceIte] at h
  obtain ⟨design, hd, h⟩ := except_bind_ok h
  obtain ⟨id, hid, h⟩ := except_bind_ok h
  obtain ⟨name, hname, h⟩ := except_bind_ok h
  obtain ⟨updated, hupd, h⟩ := except_bind_ok h
  obtain ⟨internal, hint, h⟩ := except_bind_ok h
  obtain ⟨submitted, hsub, h⟩ := except_bind_ok h
  obtain ⟨lck, hlock, h⟩ := except_bind_ok h
  cases Except.ok.inj h
  rfl

/-- C4: for every new-API payload that normalizes successfully, a raw
`submitted` field equal to `true` makes `is_submitted()` true and
`is_open()` false, a `submitted` field equal to `false` or absent makes
`is_open()` true and `is_submitted()` false, and the two predicates are
never both true. -/
theorem claim_C4 (fs : List (String × Json)) (ik : Option String)
    (f : ProFormaForm)
    (h : ProFormaForm.from_api_response (.obj fs) ik true = .ok f) :
    (lookupKey fs "submitted" = some (.bool true) →
      f.is_submitted = true ∧ f.is_open = false) ∧
    ((lookupKey fs "submitted" = some (.bool false)
        ∨ lookupKey fs "submitted" = none) →
      f.is_open = true ∧ f.is_submitted = false) ∧
    ¬(f.is_open = true ∧ f.is_submitted = true) := by
  have hst := from_api_response_new_state fs ik f h
  refine ⟨?_, ?_, ?_⟩
  · intro hsub
    simp [ProFormaForm.is_submitted, ProFormaForm.is_open, hst, getKeyD,
      hsub, Json.truthy]
  · rintro (hsub | hsub) <;>
      simp [ProFormaForm.is_open, ProFormaForm.is_submitted, hst, getKeyD,
        hsub, Json.truthy]
  · rintro ⟨ho, hs2⟩
    simp only [ProFormaForm.is_open, ProFormaForm.is_submitted, hst]
      at ho hs2
    by_cases ht : Json.truthy (getKeyD fs "submitted" (.bool false)) <;>
      simp [ht] at ho hs2

/-- The normalized form of the new-API payload `{"submitted": true}` for
issue `PROJ-1`, used to witness C4. -/
def sampleSubmittedForm : ProFormaForm :=
  ⟨"", "", none, none, ⟨"s", none, none, none⟩, [], some "PROJ-1",
   none, none, some true, none, none⟩

/-- Witness for C4 at the payload `{"submitted": true}`. -/
theorem claim_C4_witness :
    (lookupKey [("submitted", Json.bool true)] "submitted"
        = some (.bool true) →
      sampleSubmittedForm.is_submitted = true ∧
      sampleSubmittedForm.is_open = false) ∧
    ((lookupKey [("submitted", Json.bool true)] "submitted"
        = some (.bool false)
      ∨ lookupKey [("submitted", Json.bool true)] "submitted" = none) →
      sampleSubmittedForm.is_open = true ∧
      sampleSubmittedForm.is_submitted = false) ∧
    ¬(sampleSubmittedForm.is_open = true ∧
      sampleSubmittedForm.is_submitted = true) :=
  claim_C4 [("submitted", .bool true)] (some "PROJ-1")
    sampleSubmittedForm rfl

/-- C5: a 404 from the Forms API is never surfaced by the list and detail
operations, whatever the response body: `get_issue_forms` and
`get_form_attachments` return the empty list and `get_form_details`
returns `none`. -/
theorem claim_C5 (ik fid : String) (b : Body) :
    get_issue_forms ik ⟨404, b⟩ = .ok [] ∧
    get_form_attachments ik fid ⟨404, b⟩ = .ok [] ∧
    get_form_details ik fid ⟨404, b⟩ = .ok none := by
  refine ⟨?_, ?_, ?_⟩ <;>
    simp [get_issue_forms, get_form_attachments, get_form_details,
      make_forms_api_request]

/-- C6: a bulk listing response that is a JSON array with one entry that
normalizes successfully and one whose normalization raises returns exactly
the one normalized form (in either order); the failing entry is skipped
and never fails the whole listing. -/
theorem claim_C6 (ik : String) (a b : Json) (f : ProFormaForm)
    (e : FormsError)
    (ha : ProFormaForm.from_api_response a (some ik) true = .ok f)
    (hb : ProFormaForm.from_api_response b (some ik) true = .error e) :
    get_issue_forms ik ⟨200, .json (.arr [a, b])⟩ = .ok [f] ∧
    get_issue_forms ik ⟨200, .json (.arr [b, a])⟩ = .ok [f] := by
  constructor <;>
    simp [get_issue_forms, make_forms_api_request, ha, hb, Except.toOption]

/-- The normalized form of the well-formed new-API entry `{"id": "u1"}`
for issue `PROJ-1`, used to witness C6. -/
def sampleListedForm : ProFormaForm :=
  ⟨"u1", "u1", none, none, ⟨"o", none, none, none⟩, [], some "PROJ-1",
   none, none, none, none, none⟩

/-- Witness for C6 at the listing `[{"id": "u1"}, "oops"]` (a non-object
entry makes normalization raise `AttributeError`). -/
theorem claim_C6_witness :
    get_issue_forms "PROJ-1" ⟨200, .json (.arr [.obj [("id", .str "u1")],
      .str "oops"])⟩ = .ok [sampleListedForm] ∧
    get_issue_forms "PROJ-1" ⟨200, .json (.arr [.str "oops",
      .obj [("id", .str "u1")]])⟩ = .ok [sampleListedForm] :=
  claim_C6 "PROJ-1" (.obj [("id", .str "u1")]) (.str "oops")
    sampleListedForm (.otherError "AttributeError: no attribute get")
    rfl rfl

/-- C8 counterexample: a 2xx form-detail payload that is a JSON list does
NOT raise a validation error — `get_form_details` logs and returns `none`
(the claim says an error is raised in this situation). -/
theorem claim_C8_counterexample :
    get_form_details "PROJ-1" "f1" ⟨200, .json (.arr [])⟩ = .ok none ∧
    ∀ e, get_form_details "PROJ-1" "f1" ⟨200, .json (.arr [])⟩
      ≠ .error e := by
  constructor
  · rfl
  · intro e h
    exact Except.noConfusion h

/-- C8 amended: form normalization never raises on missing optional keys
(the empty payload object normalizes in both API generations), and raises
when the raw payload is not a JSON object where one was expected; however,
when a single form detail request yields a 2xx payload that is a JSON list
instead of an object, no error is raised — `get_form_details` logs the
unexpected type and returns `none` (absent). -/
theorem claim_C8_amended (j : Json) (ik : Option String) (api : Bool)
    (hj : ∀ fs, j ≠ .obj fs) (ik2 fid : String) (xs : List Json) :
    (∃ f, ProFormaForm.from_api_response (.obj []) ik api = .ok f) ∧
    (∃ e, ProFormaForm.from_api_response j ik api = .error e) ∧
    get_form_details ik2 fid ⟨200, .json (.arr xs)⟩ = .ok none := by
  refine ⟨?_, ?_, ?_⟩
  · cases api
    · exact ⟨_, rfl⟩
    · exact ⟨_, rfl⟩
  · cases j with
    | obj fs => exact absurd rfl (hj fs)
    | null => exact ⟨_, rfl⟩
    | bool v => exact ⟨_, rfl⟩
    | num n => exact ⟨_, rfl⟩
    | str s => exact ⟨_, rfl⟩
    | arr ys => exact ⟨_, rfl⟩
  · simp [get_form_details, make_forms_api_request]

/-- Witness for C8 (amended) at `j = "x"` (a JSON string payload) and a
2xx empty-list detail response. -/
theorem claim_C8_amended_witness :
    (∃ f, ProFormaForm.from_api_response (.obj []) (some "PROJ-1") true
      = .ok f) ∧
    (∃ e, ProFormaForm.from_api_response (.str "x") (some "PROJ-1") true
      = .error e) ∧
    get_form_details "PROJ-1" "f1" ⟨200, .json (.arr [])⟩ = .ok none :=
  claim_C8_amended (.str "x") (some "PROJ-1") true
    (fun _ h => Json.noConfusion h) "PROJ-1" "f1" []

end McpAtlassian
